import Mathlib

/-!
# Verification of the checkout workflow of the Dmart-like Shopping API

This file gives a shallow embedding, in Lean 4, of the `checkout` endpoint of
`src/main.py` (the only multi-step component of the repository), and proves or
refutes the frozen specification claims about it.

Modelling conventions:

* Monetary values (`price`, `unit_price`, `line_total`, `subtotal`, `tax`,
  `total`), which the Python code holds as `float`, are modelled as rational
  numbers `ℚ`.  The spec (§4 step 5) states that the exact tie-breaking of
  2-decimal rounding "is not contractually specified by the source — pick one
  and document it"; we pick round-half-up, `round2` below.
* Product references are opaque strings.  The Python code converts each
  `product_id` through `ObjectId` and back through `str`; we assume canonical
  (well-formed, normalised) references, so that conversion is the identity.
* The document store is modelled by an explicit catalog (a list of products,
  in collection order) together with two failure switches `findErr` and
  `createErr`:  `findErr = some msg` means the `db["product"].find` call
  raises an exception with text `msg`, `createErr = some msg` the same for
  `create_document`.  A raised exception is caught by the generic
  `except Exception` handler of `checkout` and surfaced as HTTP 500 with the
  exception text, exactly as in lines 143-146 of `src/main.py`.
* The fresh `ObjectId()` used for the invoice number (line 121) and the id
  returned by `create_document` (line 134) are passed in as parameters `uid`
  and `orderId`: they model the nondeterministic fresh identifiers.
* The Python dict built in lines 93-97 is modelled by an association list with
  insert-or-replace semantics (`dictInsert`), and `dict.get` by `dictGet`.
* The Python slice `s[-8:]` is modelled by `strTakeRight s 8`.
-/

set_option autoImplicit false

namespace Shopping

/-- A product document of the `product` collection: `_id` (as its string
form), and the optional `title` and `price` fields read by `checkout`
(`prod.get("title")`, `prod.get("price", 0)`). -/
structure Product where
  id : String
  title : Option String
  price : Option ℚ
deriving DecidableEq

/-- The `product` collection, in collection order. -/
abbrev Catalog := List Product

/-- `CartItem` of `src/main.py` lines 79-81.  `quantity : int` is an
unconstrained integer. -/
structure CartItem where
  product_id : String
  quantity : ℤ
deriving DecidableEq

/-- `CheckoutRequest` of `src/main.py` lines 83-87. -/
structure CheckoutRequest where
  customer_name : String
  customer_email : String
  customer_address : String
  items : List CartItem
deriving DecidableEq

/-- A line-item dict as built in lines 109-115 of `src/main.py`. -/
structure LineItem where
  product_id : String
  title : Option String
  quantity : ℤ
  unit_price : ℚ
  line_total : ℚ
deriving DecidableEq

/-- The `Order` document persisted by `create_document("order", order)`
(lines 123-132 of `src/main.py`). -/
structure Order where
  customer_name : String
  customer_email : String
  customer_address : String
  items : List LineItem
  subtotal : ℚ
  tax : ℚ
  total : ℚ
  invoice_number : String
deriving DecidableEq

/-- The successful JSON response of `checkout` (lines 135-142). -/
structure CheckoutResult where
  order_id : String
  invoice_number : String
  subtotal : ℚ
  tax : ℚ
  total : ℚ
  items : List LineItem
deriving DecidableEq

/-- An `HTTPException(status_code, detail)`. -/
structure HTTPError where
  status : Nat
  detail : String
deriving DecidableEq

/-- Rounding to 2 decimal places, round-half-up (the spec leaves the
tie-break unspecified and asks the implementer to pick one). -/
def round2 (x : ℚ) : ℚ := (⌊x * 100 + 1 / 2⌋ : ℚ) / 100

/-- Python slice `s[-n:]`: the last `n` characters of `s` (all of `s` when
`s` is shorter than `n`). -/
def strTakeRight (s : String) (n : Nat) : String :=
  ⟨s.data.drop (s.data.length - n)⟩

/-- The batched lookup `db["product"].find({"_id": {"$in": product_ids}})`
(line 95): every product of the collection whose id occurs among the
requested references, in collection order, each document once. -/
def findProducts (catalog : Catalog) (ids : List String) : List Product :=
  catalog.filter (fun p => ids.contains p.id)

/-- Python dict assignment `m[k] = v`: replace the value at an existing key,
otherwise append the new binding. -/
def dictInsert (m : List (String × Product)) (k : String) (v : Product) :
    List (String × Product) :=
  if m.any (fun kv => kv.1 == k) then
    m.map (fun kv => if kv.1 == k then (k, v) else kv)
  else m ++ [(k, v)]

/-- Python `m.get(k)`: the value bound to `k`, if any. -/
def dictGet (m : List (String × Product)) (k : String) : Option Product :=
  (m.find? (fun kv => kv.1 == k)).map Prod.snd

/-- The dict built by the loop of lines 96-97:
`for p in products: product_map[str(p["_id"])] = p`. -/
def productMap (catalog : Catalog) (ids : List String) :
    List (String × Product) :=
  (findProducts catalog ids).foldl (fun m p => dictInsert m p.id p) []

/-- One line-item dict (lines 106-115): `unit_price = float(prod.get("price", 0))`,
`line_total = unit_price * item.quantity`. -/
def mkLineItem (prod : Product) (item : CartItem) : LineItem :=
  { product_id := item.product_id
    title := prod.title
    quantity := item.quantity
    unit_price := prod.price.getD 0
    line_total := prod.price.getD 0 * (item.quantity : ℚ) }

/-- The loop of lines 104-115, building the line items in input order.
`product_map.get(item.product_id)` returning `None` would make
`prod.get("price", 0)` raise an `AttributeError`, caught by the generic
handler as a 500 (this branch is unreachable once the length check of
line 99 has passed, see `buildLineItems_ok`). -/
def buildLineItems (pm : List (String × Product)) :
    List CartItem → Except HTTPError (List LineItem)
  | [] => Except.ok []
  | item :: rest =>
    match dictGet pm item.product_id with
    | none => Except.error ⟨500, "AttributeError"⟩
    | some prod =>
      (buildLineItems pm rest).map (fun ls => mkLineItem prod item :: ls)

/-- The running accumulation `subtotal += line_total` (line 108), in input
order, starting from `0.0`. -/
def subtotalOf (ls : List LineItem) : ℚ :=
  ls.foldl (fun s li => s + li.line_total) 0

/-- The `checkout` endpoint, lines 90-146 of `src/main.py`.  Returns the
HTTP outcome together with the list of Order documents inserted into the
`order` collection during the call (in the model an insert either raises,
inserting nothing, or inserts exactly its document). -/
def checkout (catalog : Catalog) (findErr createErr : Option String)
    (uid orderId : String) (payload : CheckoutRequest) :
    Except HTTPError CheckoutResult × List Order :=
  match findErr with
  | some msg => (Except.error ⟨500, msg⟩, [])
  | none =>
    let ids := payload.items.map CartItem.product_id
    let pm := productMap catalog ids
    if pm.length ≠ ids.length then
      (Except.error ⟨400, "One or more products not found"⟩, [])
    else
      match buildLineItems pm payload.items with
      | Except.error e => (Except.error e, [])
      | Except.ok lineItems =>
        let subtotal := subtotalOf lineItems
        let tax := round2 (subtotal * (1 / 10))
        let total := round2 (subtotal + tax)
        let invoiceNumber := strTakeRight ("INV-" ++ uid) 8
        let order : Order :=
          { customer_name := payload.customer_name
            customer_email := payload.customer_email
            customer_address := payload.customer_address
            items := lineItems
            subtotal := round2 subtotal
            tax := tax
            total := total
            invoice_number := invoiceNumber }
        match createErr with
        | some msg => (Except.error ⟨500, msg⟩, [])
        | none =>
          (Except.ok
            { order_id := orderId
              invoice_number := invoiceNumber
              subtotal := round2 subtotal
              tax := tax
              total := total
              items := lineItems },
           [order])

/-- `true` when some product of the catalog carries the given reference. -/
def resolvesB (catalog : Catalog) (i : String) : Bool :=
  catalog.any (fun p => p.id == i)

/-- The catalog product carrying the given reference, if any. -/
def resolvedProduct (catalog : Catalog) (i : String) : Option Product :=
  catalog.find? (fun p => p.id == i)

/-- The unit price the workflow attributes to a reference: the price of the
resolved product, 0 when the price field is absent. -/
def resolvedPrice (catalog : Catalog) (i : String) : ℚ :=
  ((resolvedProduct catalog i).map (fun p => p.price.getD 0)).getD 0

/-- The spec-level line item for a cart item (product resolved directly
against the catalog). -/
def specLine (catalog : Catalog) (it : CartItem) : LineItem :=
  { product_id := it.product_id
    title := (resolvedProduct catalog it.product_id).bind Product.title
    quantity := it.quantity
    unit_price := resolvedPrice catalog it.product_id
    line_total := resolvedPrice catalog it.product_id * (it.quantity : ℚ) }

/-- The spec-level subtotal: the sum, over the cart items in input order, of
`unit_price × quantity`. -/
def specSubtotal (catalog : Catalog) (items : List CartItem) : ℚ :=
  (items.map (fun it => resolvedPrice catalog it.product_id * (it.quantity : ℚ))).sum

/-- The Order document a valid cart gives rise to, expressed spec-side
(products resolved directly against the catalog). -/
def specOrder (catalog : Catalog) (uid : String) (payload : CheckoutRequest) : Order :=
  { customer_name := payload.customer_name
    customer_email := payload.customer_email
    customer_address := payload.customer_address
    items := payload.items.map (specLine catalog)
    subtotal := round2 (specSubtotal catalog payload.items)
    tax := round2 (specSubtotal catalog payload.items * (1 / 10))
    total := round2 (specSubtotal catalog payload.items
      + round2 (specSubtotal catalog payload.items * (1 / 10)))
    invoice_number := strTakeRight ("INV-" ++ uid) 8 }

/-- The response a valid cart gives rise to, expressed spec-side. -/
def specResult (catalog : Catalog) (uid oid : String) (payload : CheckoutRequest) :
    CheckoutResult :=
  { order_id := oid
    invoice_number := strTakeRight ("INV-" ++ uid) 8
    subtotal := round2 (specSubtotal catalog payload.items)
    tax := round2 (specSubtotal catalog payload.items * (1 / 10))
    total := round2 (specSubtotal catalog payload.items
      + round2 (specSubtotal catalog payload.items * (1 / 10)))
    items := payload.items.map (specLine catalog) }

deriving instance DecidableEq for Except

/-- Fixture catalog: a single product priced 1. -/
def catA : Catalog := [⟨"a", some "Alpha", some 1⟩]

/-- Fixture cart requesting the same existing product twice. -/
def reqDup : CheckoutRequest := ⟨"n", "e", "ad", [⟨"a", 1⟩, ⟨"a", 1⟩]⟩

/-- Fixture catalog whose single product has price 1/250 (0.004: more than
two decimal places). -/
def catP : Catalog := [⟨"a", some "Tiny", some (1/250)⟩]

/-- Fixture one-item cart for product `"a"`. -/
def reqOne : CheckoutRequest := ⟨"n", "e", "ad", [⟨"a", 1⟩]⟩

/-- Fixture catalog for the worked pricing example of spec §8: prices 9.99
and 5.00. -/
def cat8 : Catalog := [⟨"a", some "A", some (999/100)⟩, ⟨"b", some "B", some 5⟩]

/-- Fixture cart for the worked pricing example of spec §8: quantities 3
and 1. -/
def req8 : CheckoutRequest := ⟨"n", "e", "ad", [⟨"a", 3⟩, ⟨"b", 1⟩]⟩

/-- Fixture empty cart. -/
def reqEmpty : CheckoutRequest := ⟨"n", "e", "ad", []⟩

/-- Fixture cart referencing a product absent from every fixture catalog. -/
def reqMissing : CheckoutRequest := ⟨"n", "e", "ad", [⟨"zzz", 1⟩]⟩

/-- Fixture 24-character unique identifier, the shape of a hex `ObjectId`. -/
def uid24 : String := "0123456789abcdefghijklmn"

/-! ## Helper lemmas about the dictionary and the product map -/

theorem subtotalOf_go (a : ℚ) (ls : List LineItem) :
    ls.foldl (fun s li => s + li.line_total) a = a + (ls.map LineItem.line_total).sum := by
  induction ls generalizing a with
  | nil => simp
  | cons x xs ih => simp [List.foldl_cons, ih (a + x.line_total), add_assoc]

/-- The running accumulation of line 108 is the sum of the line totals. -/
theorem subtotalOf_eq_sum (ls : List LineItem) :
    subtotalOf ls = (ls.map LineItem.line_total).sum := by
  simpa using subtotalOf_go 0 ls

theorem dictInsert_of_not_mem (m : List (String × Product)) (k : String) (v : Product)
    (h : ∀ kv ∈ m, kv.1 ≠ k) : dictInsert m k v = m ++ [(k, v)] := by
  have : m.any (fun kv => kv.1 == k) = false := by
    simp only [List.any_eq_false]
    intro kv hkv
    simpa using h kv hkv
  simp [dictInsert, this]

theorem foldl_dictInsert_nodup (l : List Product) (acc : List (String × Product))
    (hl : (l.map Product.id).Nodup) (hdisj : ∀ kv ∈ acc, ∀ p ∈ l, kv.1 ≠ p.id) :
    l.foldl (fun m p => dictInsert m p.id p) acc = acc ++ l.map (fun p => (p.id, p)) := by
  induction l generalizing acc with
  | nil => simp
  | cons p rest ih =>
    have hins : dictInsert acc p.id p = acc ++ [(p.id, p)] := by
      refine dictInsert_of_not_mem acc p.id p (fun kv hkv => ?_)
      exact hdisj kv hkv p (by simp)
    have hrest : (rest.map Product.id).Nodup := by
      simpa using hl.of_cons
    have hdisj' : ∀ kv ∈ acc ++ [(p.id, p)], ∀ q ∈ rest, kv.1 ≠ q.id := by
      intro kv hkv q hq
      rcases List.mem_append.mp hkv with h1 | h1
      · exact hdisj kv h1 q (by simp [hq])
      · have hkv' : kv = (p.id, p) := by simpa using h1
        subst hkv'
        have hl' : (p.id :: rest.map Product.id).Nodup := by simpa using hl
        have : p.id ∉ rest.map Product.id := (List.nodup_cons.mp hl').1
        simp only [List.mem_map] at this
        intro hcontra
        exact this ⟨q, hq, hcontra.symm⟩
    simp only [List.foldl_cons, hins, ih (acc ++ [(p.id, p)]) hrest hdisj']
    simp

/-- When the catalog has pairwise-distinct ids (the `_id` of a document
collection is its primary key), the dict of lines 96-97 is just the filtered
catalog, keyed by id. -/
theorem productMap_eq (catalog : Catalog) (ids : List String)
    (hc : (catalog.map Product.id).Nodup) :
    productMap catalog ids
      = (catalog.filter (fun p => ids.contains p.id)).map (fun p => (p.id, p)) := by
  have hf : ((catalog.filter (fun p => ids.contains p.id)).map Product.id).Nodup :=
    ((List.filter_sublist catalog).map Product.id).nodup hc
  simpa [productMap, findProducts] using
    foldl_dictInsert_nodup (catalog.filter (fun p => ids.contains p.id)) [] hf (by simp)

theorem length_eq_of_nodup_of_mem_iff {l₁ l₂ : List String} (h₁ : l₁.Nodup) (h₂ : l₂.Nodup)
    (h : ∀ x, x ∈ l₁ ↔ x ∈ l₂) : l₁.length = l₂.length := by
  rw [← List.toFinset_card_of_nodup h₁, ← List.toFinset_card_of_nodup h₂]
  congr 1
  ext x
  simpa using h x

/-- The size of the filtered catalog is the number of distinct requested
references that resolve. -/
theorem length_filter_catalog (catalog : Catalog) (ids : List String)
    (hc : (catalog.map Product.id).Nodup) :
    (catalog.filter (fun p => ids.contains p.id)).length
      = (ids.dedup.filter (fun i => resolvesB catalog i)).length := by
  have hA : ((catalog.filter (fun p => ids.contains p.id)).map Product.id).Nodup :=
    ((List.filter_sublist catalog).map Product.id).nodup hc
  have hB : (ids.dedup.filter (fun i => resolvesB catalog i)).Nodup :=
    (List.nodup_dedup ids).filter _
  have hmem : ∀ x, (x ∈ (catalog.filter (fun p => ids.contains p.id)).map Product.id)
      ↔ x ∈ ids.dedup.filter (fun i => resolvesB catalog i) := by
    intro x
    simp only [List.mem_map, List.mem_filter, List.mem_dedup, resolvesB, List.any_eq_true,
      List.contains, List.elem_iff, beq_iff_eq]
    constructor
    · rintro ⟨p, ⟨hp, hpid⟩, rfl⟩
      exact ⟨hpid, ⟨p, hp, rfl⟩⟩
    · rintro ⟨hx, ⟨p, hp, hpid⟩⟩
      exact ⟨p, ⟨hp, hpid ▸ hx⟩, hpid⟩
  have := length_eq_of_nodup_of_mem_iff hA hB hmem
  simpa using this

/-- The length check of line 99: `len(product_map) == len(product_ids)` holds
exactly when the requested references are pairwise distinct and every one of
them resolves against the catalog. -/
theorem length_productMap_eq_iff (catalog : Catalog) (ids : List String)
    (hc : (catalog.map Product.id).Nodup) :
    (productMap catalog ids).length = ids.length
      ↔ (ids.Nodup ∧ ∀ i ∈ ids, resolvesB catalog i = true) := by
  rw [productMap_eq _ _ hc, List.length_map, length_filter_catalog _ _ hc]
  constructor
  · intro h
    have hfd : (ids.dedup.filter (fun i => resolvesB catalog i)).Sublist ids.dedup :=
      List.filter_sublist _
    have hdi : ids.dedup.Sublist ids := List.dedup_sublist ids
    have h1 : (ids.dedup.filter (fun i => resolvesB catalog i)).length ≤ ids.dedup.length :=
      hfd.length_le
    have h2 : ids.dedup.length ≤ ids.length := hdi.length_le
    have hd : ids.dedup.length = ids.length := le_antisymm h2 (by omega)
    have hdeq : ids.dedup = ids := hdi.eq_of_length hd
    have hnd : ids.Nodup := by rw [← hdeq]; exact List.nodup_dedup ids
    have hfl : (ids.dedup.filter (fun i => resolvesB catalog i)).length = ids.dedup.length := by
      omega
    have hfeq : ids.dedup.filter (fun i => resolvesB catalog i) = ids.dedup :=
      hfd.eq_of_length hfl
    have hall := List.filter_eq_self.mp hfeq
    exact ⟨hnd, fun i hi => hall i (List.mem_dedup.mpr hi)⟩
  · rintro ⟨hnd, hall⟩
    rw [hnd.dedup, List.filter_eq_self.mpr (fun i hi => hall i hi)]

theorem dictGet_cons (kv : String × Product) (m : List (String × Product)) (i : String) :
    dictGet (kv :: m) i = if kv.1 == i then some kv.2 else dictGet m i := by
  cases h : kv.1 == i
  · simp [dictGet, List.find?_cons_of_neg, h]
  · simp [dictGet, List.find?_cons_of_pos, h]

theorem dictGet_map_pair (l : List Product) (i : String) :
    dictGet (l.map (fun p => (p.id, p))) i = l.find? (fun p => p.id == i) := by
  induction l with
  | nil => rfl
  | cons p rest ih =>
    simp only [List.map_cons, dictGet_cons]
    cases h : p.id == i
    · rw [List.find?_cons_of_neg _ (by simp [h])]
      simpa using ih
    · rw [List.find?_cons_of_pos _ (by simp [h])]
      simp

theorem find?_filter_contains (catalog : Catalog) (ids : List String) (i : String)
    (hi : i ∈ ids) :
    (catalog.filter (fun p => ids.contains p.id)).find? (fun p => p.id == i)
      = resolvedProduct catalog i := by
  induction catalog with
  | nil => rfl
  | cons p rest ih =>
    simp only [resolvedProduct] at ih ⊢
    rw [List.filter_cons]
    cases hpi : p.id == i
    · rw [List.find?_cons_of_neg _ (by simp [hpi])]
      cases hq : (ids.contains p.id : Bool)
      · simpa using ih
      · rw [if_pos rfl, List.find?_cons_of_neg _ (by simp [hpi])]
        exact ih
    · have hpieq : p.id = i := by simpa using hpi
      have hq : ids.contains p.id = true := by
        simp [List.contains, List.elem_iff, hpieq, hi]
      rw [hq, if_pos rfl, List.find?_cons_of_pos (p := fun q : Product => q.id == i) _ hpi,
        List.find?_cons_of_pos (p := fun q : Product => q.id == i) _ hpi]

/-- Once a reference is among the requested ones, `product_map.get` resolves
it exactly as a direct catalog lookup would. -/
theorem dictGet_productMap (catalog : Catalog) (ids : List String) (i : String)
    (hc : (catalog.map Product.id).Nodup) (hi : i ∈ ids) :
    dictGet (productMap catalog ids) i = resolvedProduct catalog i := by
  rw [productMap_eq _ _ hc, dictGet_map_pair, find?_filter_contains _ _ _ hi]

theorem resolvedProduct_isSome (catalog : Catalog) (i : String) :
    (resolvedProduct catalog i).isSome = true ↔ resolvesB catalog i = true := by
  simp [resolvedProduct, resolvesB, List.find?_isSome, List.any_eq_true]

/-- The line-item loop succeeds, and produces the spec-level line items, when
the reference of every cart item resolves through `product_map`. -/
theorem buildLineItems_ok (catalog : Catalog) (pm : List (String × Product))
    (items : List CartItem)
    (hget : ∀ it ∈ items, dictGet pm it.product_id = resolvedProduct catalog it.product_id)
    (hres : ∀ it ∈ items, resolvesB catalog it.product_id = true) :
    buildLineItems pm items = Except.ok (items.map (specLine catalog)) := by
  induction items with
  | nil => rfl
  | cons it rest ih =>
    have h1 := hget it (by simp)
    have h2 := hres it (by simp)
    obtain ⟨p, hp⟩ := Option.isSome_iff_exists.mp ((resolvedProduct_isSome _ _).mpr h2)
    have hsome : dictGet pm it.product_id = some p := by rw [h1, hp]
    have hrest := ih (fun x hx => hget x (by simp [hx])) (fun x hx => hres x (by simp [hx]))
    simp only [buildLineItems, hsome, hrest, List.map_cons]
    simp [Except.map, mkLineItem, specLine, resolvedPrice, hp]

/-- The accumulated subtotal over the spec-level line items is the spec-level
subtotal. -/
theorem subtotalOf_specLines (catalog : Catalog) (items : List CartItem) :
    subtotalOf (items.map (specLine catalog)) = specSubtotal catalog items := by
  rw [subtotalOf_eq_sum, List.map_map]
  rfl

/-! ## Characterizations of the checkout outcomes -/

/-- A raised exception in the catalog lookup is surfaced as HTTP 500 with the
exception text (lines 145-146). -/
theorem checkout_find_fail (catalog : Catalog) (m : String) (ce : Option String)
    (uid oid : String) (payload : CheckoutRequest) :
    checkout catalog (some m) ce uid oid payload = (Except.error ⟨500, m⟩, []) := rfl

/-- On a valid cart (pairwise-distinct references, all resolving) with a
healthy document store, checkout returns the spec-side response and persists
exactly the spec-side Order. -/
theorem checkout_ok_spec (catalog : Catalog) (uid oid : String) (payload : CheckoutRequest)
    (hc : (catalog.map Product.id).Nodup)
    (hnd : (payload.items.map CartItem.product_id).Nodup)
    (hres : ∀ i ∈ payload.items.map CartItem.product_id, resolvesB catalog i = true) :
    checkout catalog none none uid oid payload =
      (Except.ok (specResult catalog uid oid payload), [specOrder catalog uid payload]) := by
  have hguard : (productMap catalog (payload.items.map CartItem.product_id)).length
      = (payload.items.map CartItem.product_id).length :=
    (length_productMap_eq_iff _ _ hc).mpr ⟨hnd, hres⟩
  have hbuild := buildLineItems_ok catalog
    (productMap catalog (payload.items.map CartItem.product_id)) payload.items
    (fun it hit => dictGet_productMap _ _ _ hc (List.mem_map_of_mem _ hit))
    (fun it hit => hres _ (List.mem_map_of_mem _ hit))
  simp only [checkout, hbuild]
  rw [if_neg (by simp [hguard])]
  simp [specResult, specOrder, subtotalOf_specLines]

/-- On a valid cart, a raised exception in the persistence call is surfaced
as HTTP 500 with the exception text, and nothing is persisted. -/
theorem checkout_create_fail (catalog : Catalog) (m : String) (uid oid : String)
    (payload : CheckoutRequest)
    (hc : (catalog.map Product.id).Nodup)
    (hnd : (payload.items.map CartItem.product_id).Nodup)
    (hres : ∀ i ∈ payload.items.map CartItem.product_id, resolvesB catalog i = true) :
    checkout catalog none (some m) uid oid payload = (Except.error ⟨500, m⟩, []) := by
  have hguard : (productMap catalog (payload.items.map CartItem.product_id)).length
      = (payload.items.map CartItem.product_id).length :=
    (length_productMap_eq_iff _ _ hc).mpr ⟨hnd, hres⟩
  have hbuild := buildLineItems_ok catalog
    (productMap catalog (payload.items.map CartItem.product_id)) payload.items
    (fun it hit => dictGet_productMap _ _ _ hc (List.mem_map_of_mem _ hit))
    (fun it hit => hres _ (List.mem_map_of_mem _ hit))
  simp only [checkout, hbuild]
  rw [if_neg (by simp [hguard])]

/-- Inversion of a successful checkout: the exact shape of the response and
of the single persisted Order, in terms of the computed line items. -/
theorem checkout_ok_inv (catalog : Catalog) (fe ce : Option String) (uid oid : String)
    (payload : CheckoutRequest) (r : CheckoutResult)
    (h : (checkout catalog fe ce uid oid payload).1 = Except.ok r) :
    fe = none ∧ ce = none
    ∧ (productMap catalog (payload.items.map CartItem.product_id)).length
        = (payload.items.map CartItem.product_id).length
    ∧ buildLineItems (productMap catalog (payload.items.map CartItem.product_id)) payload.items
        = Except.ok r.items
    ∧ r.order_id = oid
    ∧ r.invoice_number = strTakeRight ("INV-" ++ uid) 8
    ∧ r.subtotal = round2 (subtotalOf r.items)
    ∧ r.tax = round2 (subtotalOf r.items * (1 / 10))
    ∧ r.total = round2 (subtotalOf r.items + r.tax)
    ∧ (checkout catalog fe ce uid oid payload).2 =
        [⟨payload.customer_name, payload.customer_email, payload.customer_address,
          r.items, r.subtotal, r.tax, r.total, r.invoice_number⟩] := by
  cases fe with
  | some m => simp [checkout] at h
  | none =>
    by_cases hg : (productMap catalog (payload.items.map CartItem.product_id)).length
        = (payload.items.map CartItem.product_id).length
    · cases hb : buildLineItems (productMap catalog (payload.items.map CartItem.product_id))
          payload.items with
      | error e =>
        rw [show (checkout catalog none ce uid oid payload).1 = Except.error e by
          simp only [checkout, hb]
          rw [if_neg (by simp [hg])]] at h
        exact (Except.noConfusion h)
      | ok L =>
        cases ce with
        | some m =>
          rw [show (checkout catalog none (some m) uid oid payload).1
              = Except.error ⟨500, m⟩ by
            simp only [checkout, hb]
            rw [if_neg (by simp [hg])]] at h
          exact (Except.noConfusion h)
        | none =>
          have hval : (checkout catalog none none uid oid payload) =
              (Except.ok (⟨oid, strTakeRight ("INV-" ++ uid) 8, round2 (subtotalOf L),
                  round2 (subtotalOf L * (1 / 10)),
                  round2 (subtotalOf L + round2 (subtotalOf L * (1 / 10))), L⟩ : CheckoutResult),
               [⟨payload.customer_name, payload.customer_email, payload.customer_address,
                 L, round2 (subtotalOf L), round2 (subtotalOf L * (1 / 10)),
                 round2 (subtotalOf L + round2 (subtotalOf L * (1 / 10))),
                 strTakeRight ("INV-" ++ uid) 8⟩]) := by
            simp only [checkout, hb]
            rw [if_neg (by simp [hg])]
          have hr : (⟨oid, strTakeRight ("INV-" ++ uid) 8, round2 (subtotalOf L),
              round2 (subtotalOf L * (1 / 10)),
              round2 (subtotalOf L + round2 (subtotalOf L * (1 / 10))), L⟩ : CheckoutResult)
              = r := Except.ok.inj (by rw [hval] at h; exact h)
          subst hr
          exact ⟨rfl, rfl, hg, rfl, rfl, rfl, rfl, rfl, rfl, by rw [hval]⟩
    · rw [show (checkout catalog none ce uid oid payload).1
          = Except.error ⟨400, "One or more products not found"⟩ by
        simp only [checkout]
        rw [if_pos (by simpa using hg)]] at h
      exact (Except.noConfusion h)

/-- Any error produced by the line-item loop carries status 500. -/
theorem buildLineItems_error_status (pm : List (String × Product)) (items : List CartItem)
    (e : HTTPError) (h : buildLineItems pm items = Except.error e) : e.status = 500 := by
  induction items with
  | nil => simp [buildLineItems] at h
  | cons it rest ih =>
    simp only [buildLineItems] at h
    cases hg : dictGet pm it.product_id with
    | none =>
      rw [hg] at h
      cases h
      rfl
    | some p =>
      rw [hg] at h
      cases hb : buildLineItems pm rest with
      | error e2 =>
        rw [hb] at h
        cases h
        exact ih hb
      | ok L =>
        rw [hb] at h
        cases h

/-- Every failing checkout fails either with the 400 products-not-found
error or with a 500. -/
theorem checkout_error_cases (catalog : Catalog) (fe ce : Option String) (uid oid : String)
    (payload : CheckoutRequest) (e : HTTPError)
    (h : (checkout catalog fe ce uid oid payload).1 = Except.error e) :
    e = ⟨400, "One or more products not found"⟩ ∨ e.status = 500 := by
  cases fe with
  | some m =>
    right
    rw [checkout_find_fail] at h
    injection h with h2
    rw [← h2]
  | none =>
    by_cases hg : (productMap catalog (payload.items.map CartItem.product_id)).length
        = (payload.items.map CartItem.product_id).length
    · cases hb : buildLineItems (productMap catalog (payload.items.map CartItem.product_id))
          payload.items with
      | error e2 =>
        rw [show (checkout catalog none ce uid oid payload).1 = Except.error e2 by
          simp only [checkout, hb]
          rw [if_neg (by simp [hg])]] at h
        injection h with h2
        subst h2
        exact Or.inr (buildLineItems_error_status _ _ _ hb)
      | ok L =>
        cases ce with
        | some m =>
          rw [show (checkout catalog none (some m) uid oid payload).1
              = Except.error ⟨500, m⟩ by
            simp only [checkout, hb]
            rw [if_neg (by simp [hg])]] at h
          injection h with h2
          rw [← h2]
          exact Or.inr rfl
        | none =>
          rw [show (checkout catalog none none uid oid payload).1
              = Except.ok (⟨oid, strTakeRight ("INV-" ++ uid) 8, round2 (subtotalOf L),
                  round2 (subtotalOf L * (1 / 10)),
                  round2 (subtotalOf L + round2 (subtotalOf L * (1 / 10))), L⟩ : CheckoutResult) by
            simp only [checkout, hb]
            rw [if_neg (by simp [hg])]] at h
          exact (Except.noConfusion h)
    · rw [show (checkout catalog none ce uid oid payload).1
          = Except.error ⟨400, "One or more products not found"⟩ by
        simp only [checkout]
        rw [if_pos (by simpa using hg)]] at h
      injection h with h2
      exact Or.inl h2.symm

/-- The products-not-found error occurs exactly when the requested references
are not pairwise distinct or some of them does not resolve. -/
theorem checkout_pnf_iff (catalog : Catalog) (ce : Option String) (uid oid : String)
    (payload : CheckoutRequest) (hc : (catalog.map Product.id).Nodup) :
    (checkout catalog none ce uid oid payload).1
        = Except.error ⟨400, "One or more products not found"⟩
      ↔ ¬((payload.items.map CartItem.product_id).Nodup
          ∧ ∀ i ∈ payload.items.map CartItem.product_id, resolvesB catalog i = true) := by
  constructor
  · intro h hcon
    obtain ⟨hnd, hres⟩ := hcon
    cases ce with
    | some m =>
      rw [checkout_create_fail catalog m uid oid payload hc hnd hres] at h
      simp at h
    | none =>
      rw [checkout_ok_spec catalog uid oid payload hc hnd hres] at h
      simp at h
  · intro hcon
    have hg : (productMap catalog (payload.items.map CartItem.product_id)).length
        ≠ (payload.items.map CartItem.product_id).length :=
      fun he => hcon ((length_productMap_eq_iff _ _ hc).mp he)
    simp only [checkout]
    rw [if_pos (by simpa using hg)]

/-- A failed checkout inserts nothing into the order collection. -/
theorem checkout_error_no_writes (catalog : Catalog) (fe ce : Option String)
    (uid oid : String) (payload : CheckoutRequest) (e : HTTPError)
    (h : (checkout catalog fe ce uid oid payload).1 = Except.error e) :
    (checkout catalog fe ce uid oid payload).2 = [] := by
  cases fe with
  | some m => rw [checkout_find_fail]
  | none =>
    by_cases hg : (productMap catalog (payload.items.map CartItem.product_id)).length
        = (payload.items.map CartItem.product_id).length
    · cases hb : buildLineItems (productMap catalog (payload.items.map CartItem.product_id))
          payload.items with
      | error e2 =>
        show (checkout catalog none ce uid oid payload).2 = []
        simp only [checkout, hb]
        rw [if_neg (by simp [hg])]
      | ok L =>
        cases ce with
        | some m =>
          show (checkout catalog none (some m) uid oid payload).2 = []
          simp only [checkout, hb]
          rw [if_neg (by simp [hg])]
        | none =>
          rw [show (checkout catalog none none uid oid payload).1
              = Except.ok (⟨oid, strTakeRight ("INV-" ++ uid) 8, round2 (subtotalOf L),
                  round2 (subtotalOf L * (1 / 10)),
                  round2 (subtotalOf L + round2 (subtotalOf L * (1 / 10))), L⟩ : CheckoutResult) by
            simp only [checkout, hb]
            rw [if_neg (by simp [hg])]] at h
          exact (Except.noConfusion h)
    · show (checkout catalog none ce uid oid payload).2 = []
      simp only [checkout]
      rw [if_pos (by simpa using hg)]

/-- The Python slice `("INV-" + uid)[-8:]` coincides with `uid[-8:]` as soon as the
unique id has at least 8 characters. -/
theorem strTakeRight_append_INV (uid : String) (h : 8 ≤ uid.length) :
    strTakeRight ("INV-" ++ uid) 8 = strTakeRight uid 8 := by
  unfold strTakeRight
  congr 1
  rw [String.data_append]
  have h4 : ("INV-" : String).data.length = 4 := rfl
  have hlen : uid.length = uid.data.length := rfl
  rw [List.length_append, h4]
  have harith : 4 + uid.data.length - 8 = 4 + (uid.data.length - 8) := by
    rw [hlen] at h
    omega
  rw [harith, ← h4, List.drop_append]

/-- A resolved product without a price field is priced 0. -/
theorem resolvedPrice_of_price_none (catalog : Catalog) (i : String)
    (h : (resolvedProduct catalog i).bind Product.price = none) :
    resolvedPrice catalog i = 0 := by
  unfold resolvedPrice
  cases hp : resolvedProduct catalog i with
  | none => rfl
  | some p =>
    rw [hp] at h
    have hpp : p.price = none := by simpa using h
    simp [hpp]

/-! ## The claims -/

/-- Claim C1, counterexample: a cart listing the same catalogued product in
two items has every distinct requested reference resolving, yet checkout
raises the products-not-found validation error (line 99 compares the number
of distinct resolved products with the number of cart items, not with the
number of distinct requested references). -/
theorem C1_counterexample :
    (checkout catA none none uid24 "oid1" reqDup).1
        = Except.error ⟨400, "One or more products not found"⟩
    ∧ (reqDup.items.map CartItem.product_id).all (fun i => resolvesB catA i) = true := by
  constructor
  · decide
  · decide

/-- Claim C1, amended: checkout fails with the products-not-found validation
error exactly when the requested product references are not pairwise
distinct or some requested reference does not resolve; crucially, a cart
listing the same (resolvable) reference in more than one item does raise
this error. -/
theorem C1_amended (catalog : Catalog) (ce : Option String) (uid oid : String)
    (payload : CheckoutRequest) (hc : (catalog.map Product.id).Nodup) :
    (checkout catalog none ce uid oid payload).1
        = Except.error ⟨400, "One or more products not found"⟩
      ↔ ¬((payload.items.map CartItem.product_id).Nodup
          ∧ ∀ i ∈ payload.items.map CartItem.product_id, resolvesB catalog i = true) :=
  checkout_pnf_iff catalog ce uid oid payload hc

/-- Claim C1, witness: the amended equivalence at a concrete unresolvable
cart. -/
theorem C1_witness :
    (checkout catA none none uid24 "oidw1" reqMissing).1
      = Except.error ⟨400, "One or more products not found"⟩ :=
  (C1_amended catA none uid24 "oidw1" reqMissing (by decide)).mpr (by decide)

/-- Claim C2, counterexample: for a catalogued price of 0.004 the checkout
succeeds, the sum of the returned line totals (= the sum of
unit_price × quantity in input order) is 0.004, but the returned subtotal
is the 2-decimal rounding 0 (lines 128 and 138 round the subtotal before
returning and persisting it). -/
theorem C2_counterexample :
    (checkout catP none none uid24 "oid2" reqOne).1.toOption.map
        (fun r => (r.subtotal, (r.items.map LineItem.line_total).sum)) = some (0, 1/250)
    ∧ specSubtotal catP reqOne.items = 1/250
    ∧ (0 : ℚ) ≠ 1/250 := by
  refine ⟨?_, ?_, by norm_num⟩
  · simp [checkout, productMap, findProducts, dictInsert, dictGet, buildLineItems, mkLineItem,
      subtotalOf, catP, reqOne, strTakeRight, Except.map, Except.toOption]
    norm_num [round2]
  · simp [specSubtotal, reqOne, catP, resolvedPrice, resolvedProduct]

/-- Claim C2, amended: on every successful checkout the sum of the returned
line totals equals the sum of unit_price × quantity over the cart items in
input order, while the subtotal returned (and persisted) is that sum rounded
to 2 decimal places. -/
theorem C2_amended (catalog : Catalog) (fe ce : Option String) (uid oid : String)
    (payload : CheckoutRequest) (r : CheckoutResult)
    (hc : (catalog.map Product.id).Nodup)
    (h : (checkout catalog fe ce uid oid payload).1 = Except.ok r) :
    (r.items.map LineItem.line_total).sum = specSubtotal catalog payload.items
    ∧ r.subtotal = round2 (specSubtotal catalog payload.items)
    ∧ ∀ o ∈ (checkout catalog fe ce uid oid payload).2, o.subtotal = r.subtotal := by
  obtain ⟨-, -, hg, hbuild, -, -, hsub, -, -, hw⟩ := checkout_ok_inv _ _ _ _ _ _ _ h
  obtain ⟨hnd, hres⟩ := (length_productMap_eq_iff _ _ hc).mp hg
  have hok := buildLineItems_ok catalog
    (productMap catalog (payload.items.map CartItem.product_id)) payload.items
    (fun it hit => dictGet_productMap _ _ _ hc (List.mem_map_of_mem _ hit))
    (fun it hit => hres _ (List.mem_map_of_mem _ hit))
  have hitems : r.items = payload.items.map (specLine catalog) :=
    Except.ok.inj (hbuild.symm.trans hok)
  have hsum : (r.items.map LineItem.line_total).sum = specSubtotal catalog payload.items := by
    rw [hitems, ← subtotalOf_eq_sum, subtotalOf_specLines]
  refine ⟨hsum, ?_, ?_⟩
  · rw [hsub, subtotalOf_eq_sum, hsum]
  · intro o ho
    rw [hw] at ho
    rw [List.mem_singleton.mp ho]

/-- Claim C2, witness: the amended statement at the worked two-item cart. -/
theorem C2_witness :
    (specResult cat8 uid24 "oidw2" req8).subtotal
      = round2 (specSubtotal cat8 req8.items) :=
  (C2_amended cat8 none none uid24 "oidw2" req8 (specResult cat8 uid24 "oidw2" req8)
    (by decide)
    (by rw [checkout_ok_spec cat8 uid24 "oidw2" req8 (by decide) (by decide) (by decide)])).2.1

/-- Claim C3: on every successful checkout the returned tax is
round(subtotal × 0.10, 2) and the returned total is
round(subtotal + tax, 2), where subtotal is the unrounded sum of the line
totals. -/
theorem C3_tax_total (catalog : Catalog) (fe ce : Option String) (uid oid : String)
    (payload : CheckoutRequest) (r : CheckoutResult)
    (h : (checkout catalog fe ce uid oid payload).1 = Except.ok r) :
    r.tax = round2 ((r.items.map LineItem.line_total).sum * (1 / 10))
    ∧ r.total = round2 ((r.items.map LineItem.line_total).sum + r.tax) := by
  obtain ⟨-, -, -, -, -, -, -, htax, htot, -⟩ := checkout_ok_inv _ _ _ _ _ _ _ h
  rw [← subtotalOf_eq_sum]
  exact ⟨htax, htot⟩

/-- Claim C3, witness: the tax/total invariants at the worked two-item
cart. -/
theorem C3_witness :
    (specResult cat8 uid24 "oidw3" req8).tax
        = round2 (((specResult cat8 uid24 "oidw3" req8).items.map LineItem.line_total).sum
            * (1 / 10))
    ∧ (specResult cat8 uid24 "oidw3" req8).total
        = round2 (((specResult cat8 uid24 "oidw3" req8).items.map LineItem.line_total).sum
            + (specResult cat8 uid24 "oidw3" req8).tax) :=
  C3_tax_total cat8 none none uid24 "oidw3" req8 _
    (by rw [checkout_ok_spec cat8 uid24 "oidw3" req8 (by decide) (by decide) (by decide)])

/-- Claim C4: an unresolved product reference makes checkout fail with
HTTP 400 "One or more products not found"; an exception raised in the
lookup or in the persistence call makes it fail with HTTP 500 carrying the
exception text; and every failure is one of these two shapes (the call is
single-attempt, so no retry can occur). -/
theorem C4_errors (catalog : Catalog) (fe ce : Option String) (uid oid : String)
    (payload : CheckoutRequest) (hc : (catalog.map Product.id).Nodup) :
    ((fe = none ∧ ∃ i ∈ payload.items.map CartItem.product_id, resolvesB catalog i = false) →
      (checkout catalog fe ce uid oid payload).1
        = Except.error ⟨400, "One or more products not found"⟩)
    ∧ (∀ m, fe = some m →
        (checkout catalog fe ce uid oid payload).1 = Except.error ⟨500, m⟩)
    ∧ (∀ m, fe = none → ce = some m →
        (payload.items.map CartItem.product_id).Nodup →
        (∀ i ∈ payload.items.map CartItem.product_id, resolvesB catalog i = true) →
        (checkout catalog fe ce uid oid payload).1 = Except.error ⟨500, m⟩)
    ∧ (∀ e, (checkout catalog fe ce uid oid payload).1 = Except.error e →
        e = ⟨400, "One or more products not found"⟩ ∨ e.status = 500) := by
  refine ⟨?_, ?_, ?_, ?_⟩
  · rintro ⟨hfe, i, hi, hif⟩
    subst hfe
    refine (checkout_pnf_iff catalog ce uid oid payload hc).mpr ?_
    rintro ⟨-, hall⟩
    rw [hall i hi] at hif
    exact Bool.noConfusion hif
  · intro m hm
    subst hm
    rw [checkout_find_fail]
  · intro m hfe hce hnd hres
    subst hfe
    subst hce
    rw [checkout_create_fail catalog m uid oid payload hc hnd hres]
  · exact fun e he => checkout_error_cases _ _ _ _ _ _ _ he

/-- Claim C4, witness: the 400 outcome at a concrete unresolvable cart. -/
theorem C4_witness :
    (checkout catA none none uid24 "oidw4" reqMissing).1
      = Except.error ⟨400, "One or more products not found"⟩ :=
  (C4_errors catA none none uid24 "oidw4" reqMissing (by decide)).1
    ⟨rfl, "zzz", by decide, by decide⟩

/-- Claim C5: checkout inserts at most one Order document; on success it
inserts exactly the one Order built from the computed line items, subtotal,
tax, total and invoice number; on any failure it inserts nothing. -/
theorem C5_persistence (catalog : Catalog) (fe ce : Option String) (uid oid : String)
    (payload : CheckoutRequest) :
    ((checkout catalog fe ce uid oid payload).2 = []
      ∨ ∃ o, (checkout catalog fe ce uid oid payload).2 = [o])
    ∧ (∀ r, (checkout catalog fe ce uid oid payload).1 = Except.ok r →
        (checkout catalog fe ce uid oid payload).2
          = [⟨payload.customer_name, payload.customer_email, payload.customer_address,
              r.items, r.subtotal, r.tax, r.total, r.invoice_number⟩])
    ∧ (∀ e, (checkout catalog fe ce uid oid payload).1 = Except.error e →
        (checkout catalog fe ce uid oid payload).2 = []) := by
  refine ⟨?_, ?_, ?_⟩
  · cases hres : (checkout catalog fe ce uid oid payload).1 with
    | error e => exact Or.inl (checkout_error_no_writes _ _ _ _ _ _ _ hres)
    | ok r =>
      obtain ⟨-, -, -, -, -, -, -, -, -, hw⟩ := checkout_ok_inv _ _ _ _ _ _ _ hres
      exact Or.inr ⟨_, hw⟩
  · intro r hr
    obtain ⟨-, -, -, -, -, -, -, -, -, hw⟩ := checkout_ok_inv _ _ _ _ _ _ _ hr
    exact hw
  · exact fun e he => checkout_error_no_writes _ _ _ _ _ _ _ he

/-- Claim C5, witness: a failing lookup persists nothing. -/
theorem C5_witness :
    (checkout catA (some "boom") none uid24 "oidw5" reqOne).2 = [] :=
  (C5_persistence catA (some "boom") none uid24 "oidw5" reqOne).2.2 ⟨500, "boom"⟩ rfl

/-- Claim C6, counterexample: with a fresh identifier of length exactly 4
(which satisfies the at-least-4-characters hypothesis of the claim), the
invoice number is "INV-abcd": it is not the last 8 characters of the
identifier, and the "INV-" prefix is fully visible. -/
theorem C6_counterexample :
    (checkout catA none none "abcd" "oid6" reqEmpty).1.toOption.map
        CheckoutResult.invoice_number = some "INV-abcd"
    ∧ 4 ≤ "abcd".length
    ∧ strTakeRight "abcd" 8 = "abcd"
    ∧ "INV-abcd".take 4 = "INV-" := by
  refine ⟨?_, by decide, by decide, by decide⟩
  simp [checkout, productMap, findProducts, buildLineItems, subtotalOf, catA, reqEmpty,
    strTakeRight, Except.map, Except.toOption]

/-- Claim C6, amended: on every successful checkout the invoice number is
the last 8 characters of `"INV-" ++ uid`; whenever the fresh identifier has
at least 8 characters (always the case for the 24-character ObjectId hex
string) this equals the last 8 characters of the identifier itself, so the
literal prefix is discarded. -/
theorem C6_amended (catalog : Catalog) (fe ce : Option String) (uid oid : String)
    (payload : CheckoutRequest) (r : CheckoutResult)
    (h : (checkout catalog fe ce uid oid payload).1 = Except.ok r) :
    r.invoice_number = strTakeRight ("INV-" ++ uid) 8
    ∧ (8 ≤ uid.length → r.invoice_number = strTakeRight uid 8) := by
  obtain ⟨-, -, -, -, -, hinv, -, -, -, -⟩ := checkout_ok_inv _ _ _ _ _ _ _ h
  exact ⟨hinv, fun h8 => by rw [hinv, strTakeRight_append_INV uid h8]⟩

/-- Claim C6, witness: with the 24-character identifier the invoice number
is formed of the last 8 characters of the identifier. -/
theorem C6_witness :
    (specResult cat8 uid24 "oidw6" req8).invoice_number = strTakeRight uid24 8 :=
  (C6_amended cat8 none none uid24 "oidw6" req8 _
    (by rw [checkout_ok_spec cat8 uid24 "oidw6" req8 (by decide) (by decide) (by decide)])).2
    (by decide)

/-- Claim C7: in every successful checkout, the unit price of each returned
line item is the price of the resolved product (0 when the price field is
absent). -/
theorem C7_unit_price (catalog : Catalog) (fe ce : Option String) (uid oid : String)
    (payload : CheckoutRequest) (r : CheckoutResult)
    (hc : (catalog.map Product.id).Nodup)
    (h : (checkout catalog fe ce uid oid payload).1 = Except.ok r) :
    ∀ li ∈ r.items, li.unit_price = resolvedPrice catalog li.product_id
      ∧ ((resolvedProduct catalog li.product_id).bind Product.price = none →
          li.unit_price = 0) := by
  obtain ⟨-, -, hg, hbuild, -, -, -, -, -, -⟩ := checkout_ok_inv _ _ _ _ _ _ _ h
  obtain ⟨hnd, hres⟩ := (length_productMap_eq_iff _ _ hc).mp hg
  have hok := buildLineItems_ok catalog
    (productMap catalog (payload.items.map CartItem.product_id)) payload.items
    (fun it hit => dictGet_productMap _ _ _ hc (List.mem_map_of_mem _ hit))
    (fun it hit => hres _ (List.mem_map_of_mem _ hit))
  have hitems : r.items = payload.items.map (specLine catalog) :=
    Except.ok.inj (hbuild.symm.trans hok)
  intro li hli
  rw [hitems] at hli
  obtain ⟨it, hit, rfl⟩ := List.mem_map.mp hli
  refine ⟨rfl, fun hnone => ?_⟩
  exact resolvedPrice_of_price_none catalog it.product_id hnone

/-- Claim C7, witness: the unit price of the first line of the worked
two-item cart. -/
theorem C7_witness :
    (specLine cat8 (⟨"a", 3⟩ : CartItem)).unit_price
      = resolvedPrice cat8 (specLine cat8 (⟨"a", 3⟩ : CartItem)).product_id :=
  ((C7_unit_price cat8 none none uid24 "oidw7" req8 (specResult cat8 uid24 "oidw7" req8)
      (by decide)
      (by rw [checkout_ok_spec cat8 uid24 "oidw7" req8 (by decide) (by decide) (by decide)]))
    (specLine cat8 (⟨"a", 3⟩ : CartItem)) (List.mem_cons_self _ _)).1

/-- Claim C8: the worked example — prices 9.99 and 5.00 with quantities 3
and 1 — succeeds with subtotal 34.97, tax 3.50, total 38.47. -/
theorem C8_worked_example :
    checkout cat8 none none uid24 "oid8" req8
      = (Except.ok
          { order_id := "oid8", invoice_number := "ghijklmn",
            subtotal := 3497/100, tax := 7/2, total := 3847/100,
            items := [⟨"a", some "A", 3, 999/100, 2997/100⟩, ⟨"b", some "B", 1, 5, 5⟩] },
         [{ customer_name := "n", customer_email := "e", customer_address := "ad",
            items := [⟨"a", some "A", 3, 999/100, 2997/100⟩, ⟨"b", some "B", 1, 5, 5⟩],
            subtotal := 3497/100, tax := 7/2, total := 3847/100,
            invoice_number := "ghijklmn" }]) := by
  simp [checkout, productMap, findProducts, dictInsert, dictGet, buildLineItems, mkLineItem,
    subtotalOf, cat8, req8, uid24, strTakeRight, Except.map]
  norm_num [round2]

/-- Claim C9: checkout performs no emptiness check — an empty cart succeeds
against any catalog with subtotal, tax and total all 0, an empty line-item
list, the fresh invoice number, and one persisted Order. -/
theorem C9_empty_cart (catalog : Catalog) (uid oid n e a : String) :
    checkout catalog none none uid oid ⟨n, e, a, []⟩ =
      (Except.ok ⟨oid, strTakeRight ("INV-" ++ uid) 8, 0, 0, 0, []⟩,
       [⟨n, e, a, [], 0, 0, 0, strTakeRight ("INV-" ++ uid) 8⟩]) := by
  simp [checkout, productMap, findProducts, buildLineItems, subtotalOf]
  norm_num [round2]

/-- Claim C10: checkout performs no positivity check on quantities — a
single-item cart for a catalogued product succeeds for every integer
quantity (0 and negative included), and its line total
unit_price × quantity flows into the subtotal, tax and total. -/
theorem C10_quantity_unchecked (p : Product) (q : ℤ) (uid oid n e a : String) :
    checkout [p] none none uid oid ⟨n, e, a, [⟨p.id, q⟩]⟩ =
      (Except.ok ⟨oid, strTakeRight ("INV-" ++ uid) 8,
          round2 (p.price.getD 0 * (q : ℚ)),
          round2 (p.price.getD 0 * (q : ℚ) * (1 / 10)),
          round2 (p.price.getD 0 * (q : ℚ)
            + round2 (p.price.getD 0 * (q : ℚ) * (1 / 10))),
          [⟨p.id, p.title, q, p.price.getD 0, p.price.getD 0 * (q : ℚ)⟩]⟩,
       [⟨n, e, a, [⟨p.id, p.title, q, p.price.getD 0, p.price.getD 0 * (q : ℚ)⟩],
          round2 (p.price.getD 0 * (q : ℚ)),
          round2 (p.price.getD 0 * (q : ℚ) * (1 / 10)),
          round2 (p.price.getD 0 * (q : ℚ)
            + round2 (p.price.getD 0 * (q : ℚ) * (1 / 10))),
          strTakeRight ("INV-" ++ uid) 8⟩]) := by
  rw [checkout_ok_spec [p] uid oid ⟨n, e, a, [⟨p.id, q⟩]⟩ (by simp) (by simp)
    (by simp [resolvesB])]
  simp [specResult, specOrder, specLine, specSubtotal, resolvedPrice, resolvedProduct]

end Shopping
